import Mathlib

/-!
Verification of the `routing_request.py` one-shot routing-request publisher
(`modules/tools/whl-mock/routing_request.py`).

The program keeps three global variables (`latest_localization_msg`,
`global_sequence_num`, `routing_published`), a localization callback that
caches the newest pose while unpublished, a header stamper `fill_header`,
a publish step `create_and_publish_routing_request`, and a main loop that
ticks the publish step until it succeeds (then shuts down) or an exception
escapes (the `try` block wraps the whole loop).

Coordinates are modelled as rationals (the program only copies them around;
the sole arithmetic, `move_by_heading`, is modelled separately over ℝ so
that `cos`/`sin` are the real functions).
-/

namespace RoutingRequestTool

/-- Message header, mirroring the protobuf `Header` fields that the program
touches: `timestamp_sec`, `module_name`, `sequence_num`. -/
structure Header where
  timestamp_sec : ℚ
  module_name : String
  sequence_num : ℕ
  deriving DecidableEq, Repr

/-- A 2-D position, mirroring `pose.position` of a `LocalizationEstimate`
(only `x` and `y` are ever read by the program). -/
structure Position where
  x : ℚ
  y : ℚ
  deriving DecidableEq, Repr

/-- Vehicle pose: position plus heading.  The heading is carried so that we can
state that the publish step drops it. -/
structure Pose where
  position : Position
  heading : ℚ
  deriving DecidableEq, Repr

/-- An inbound `LocalizationEstimate` message (the fields the program reads). -/
structure LocalizationEstimate where
  pose : Pose
  deriving DecidableEq, Repr

/-- A routing-request waypoint: a pose (`x`, `y`) and an optional heading
(`none` models the protobuf field being left unset). -/
structure LaneWaypoint where
  pose : Position
  heading : Option ℚ
  deriving DecidableEq, Repr

/-- A protobuf message as seen by `fill_header`: an optional `header`
attribute (`none` models a message type without a `header` field, the
`hasattr(msg, "header")` check) plus the remaining payload `α`.  For a
`RoutingRequest` the payload is its waypoint list. -/
structure PbMessage (α : Type) where
  header : Option Header
  waypoint : α
  deriving DecidableEq, Repr

/-- The `RoutingRequest` message: a header plus an ordered waypoint list. -/
abbrev RoutingRequest := PbMessage (List LaneWaypoint)

/-- A freshly constructed `RoutingRequest()`: the protobuf `header` attribute
exists (with proto default values) and the waypoint list is empty. -/
def freshRoutingRequest : RoutingRequest :=
  { header := some { timestamp_sec := 0, module_name := "", sequence_num := 0 },
    waypoint := [] }

/-- The three global state variables of the program:
`latest_localization_msg`, `global_sequence_num`, `routing_published`. -/
structure ProgState where
  latest_localization_msg : Option LocalizationEstimate
  global_sequence_num : ℕ
  routing_published : Bool
  deriving DecidableEq, Repr

/-- The globals at process start: no pose cached, counter `0`, not published. -/
def initState : ProgState :=
  { latest_localization_msg := none, global_sequence_num := 0,
    routing_published := false }

/-- `fill_header(msg)`: if the message has a `header` attribute, set its
timestamp to the current time and its module name, increment the global
sequence counter, and stamp the incremented value as the sequence number;
otherwise do nothing.  Takes and returns the counter explicitly. -/
def fill_header {α : Type} (now : ℚ) (seq : ℕ) (msg : PbMessage α) :
    PbMessage α × ℕ :=
  match msg.header with
  | none => (msg, seq)
  | some _ =>
      ({ msg with
          header := some { timestamp_sec := now,
                           module_name := "routing_publisher",
                           sequence_num := seq + 1 } },
        seq + 1)

/-- `localization_callback(msg)`: return unchanged if `routing_published`,
otherwise overwrite `latest_localization_msg` with the new message. -/
def localization_callback (msg : LocalizationEstimate) (s : ProgState) :
    ProgState :=
  if s.routing_published then s
  else { s with latest_localization_msg := some msg }

/-- Outcome of one call to `create_and_publish_routing_request`:
either a normal return (the boolean result, the updated globals, and the
messages handed to `writer.write`), or an exception raised by the write
(carrying the globals at that moment and the message whose write failed). -/
inductive PubResult where
  | ok (ret : Bool) (s : ProgState) (writes : List RoutingRequest)
  | raised (s : ProgState) (attempted : RoutingRequest)
  deriving DecidableEq, Repr

/-- `create_and_publish_routing_request(writer, end_x, end_y, end_heading)`:
if no pose is cached, log and return `False`; otherwise build a
`RoutingRequest` with a stamped header, a start waypoint copying only the
cached pose's `x`/`y`, an end waypoint with the given end coordinates and
heading, then write it to the bus.  `writeOk` models whether the bus write
succeeds; if it fails the exception propagates to the caller. -/
def create_and_publish_routing_request (now : ℚ) (writeOk : Bool)
    (end_x end_y end_heading : ℚ) (s : ProgState) : PubResult :=
  match s.latest_localization_msg with
  | none => PubResult.ok false s []
  | some m =>
      let start_position := m.pose.position
      let fh := fill_header now s.global_sequence_num freshRoutingRequest
      let start_waypoint : LaneWaypoint :=
        { pose := { x := start_position.x, y := start_position.y },
          heading := none }
      let end_waypoint : LaneWaypoint :=
        { pose := { x := end_x, y := end_y }, heading := some end_heading }
      let routing_request : RoutingRequest :=
        { fh.1 with waypoint := [start_waypoint, end_waypoint] }
      let s1 : ProgState := { s with global_sequence_num := fh.2 }
      if writeOk then PubResult.ok true s1 [routing_request]
      else PubResult.raised s1 routing_request

/-- An environment event driving the process: either the bus delivers a
localization message (the callback fires), or the main loop runs one
iteration (`now` is the wall clock; `writeOk` tells whether a bus write
performed in that iteration would succeed). -/
inductive Event where
  | poseMsg (m : LocalizationEstimate)
  | tick (now : ℚ) (writeOk : Bool)
  deriving DecidableEq, Repr

/-- Why the run ended: the supplied event list was exhausted while the loop
was still waiting; the loop called `cyber.shutdown()` after a successful
publish; or an exception escaped the loop into the top-level handler. -/
inductive StopReason where
  | eventsExhausted
  | shutdownAfterPublish
  | uncaughtException
  deriving DecidableEq, Repr

/-- The `main` loop driven by an event trace: each `tick` runs one `while`
iteration (publish attempt if not yet published, then shutdown check); a
successful publish sets `routing_published` and exits via shutdown; an
exception from the write escapes the loop (the `try` wraps the whole loop)
and reaches the top-level handler, ending the run.  Returns the final
globals, the list of messages submitted to the bus writer (in order,
including a final failed submission if any), and why the run stopped. -/
def run (ex ey eh : ℚ) :
    ProgState → List Event → ProgState × List RoutingRequest × StopReason
  | s, [] => (s, [], StopReason.eventsExhausted)
  | s, Event.poseMsg m :: rest => run ex ey eh (localization_callback m s) rest
  | s, Event.tick now wOk :: rest =>
      if s.routing_published then (s, [], StopReason.shutdownAfterPublish)
      else
        match create_and_publish_routing_request now wOk ex ey eh s with
        | PubResult.raised s1 msg => (s1, [msg], StopReason.uncaughtException)
        | PubResult.ok ret s1 w =>
            let s2 : ProgState := { s1 with routing_published := ret }
            if ret then (s2, w, StopReason.shutdownAfterPublish)
            else
              let r := run ex ey eh s2 rest
              (r.1, w ++ r.2.1, r.2.2)

/-- Run `fill_header` over a list of messages in call order, returning the
final counter and the list of sequence numbers actually stamped into
headers (messages without a `header` attribute stamp nothing). -/
def stampAll {α : Type} (now : ℚ) : ℕ → List (PbMessage α) → ℕ × List ℕ
  | seq, [] => (seq, [])
  | seq, m :: ms =>
      let fh := fill_header now seq m
      let rest := stampAll now fh.2 ms
      match fh.1.header with
      | none => rest
      | some h => (rest.1, h.sequence_num :: rest.2)

/-- `move_by_heading(x, y, heading, length)`: new coordinates obtained by
moving `length` along `heading` from `(x, y)`. -/
noncomputable def move_by_heading (x y heading length : ℝ) : ℝ × ℝ :=
  let dx := length * Real.cos heading
  let dy := length * Real.sin heading
  let new_x := x + dx
  let new_y := y + dy
  (new_x, new_y)

/-- Configuration constant `ORIGINAL_END_X`. -/
noncomputable def ORIGINAL_END_X : ℝ := -3.886315019772555

/-- Configuration constant `ORIGINAL_END_Y`. -/
noncomputable def ORIGINAL_END_Y : ℝ := 37.61260329902406

/-- Configuration constant `ORIGINAL_END_HEADING` (radians). -/
noncomputable def ORIGINAL_END_HEADING : ℝ := 1.485286644

/-- Configuration constant `EXTEND_LENGTH = 5.23 / 2`. -/
noncomputable def EXTEND_LENGTH : ℝ := 5.23 / 2

/-- The pair `(END_X, END_Y)` computed once at startup. -/
noncomputable def END_POINT : ℝ × ℝ :=
  move_by_heading ORIGINAL_END_X ORIGINAL_END_Y ORIGINAL_END_HEADING EXTEND_LENGTH

/-- The target end-point `END_X`. -/
noncomputable def END_X : ℝ := END_POINT.1

/-- The target end-point `END_Y`. -/
noncomputable def END_Y : ℝ := END_POINT.2

/-! ## Helper lemmas -/

/-- Once `routing_published` is set, the localization callback returns the
state unchanged. -/
theorem callback_published_eq (m : LocalizationEstimate) (s : ProgState)
    (h : s.routing_published = true) : localization_callback m s = s := by
  simp [localization_callback, h]

/-- From a state with `routing_published` set, a run performs no bus
submissions and leaves the globals untouched. -/
theorem run_of_published (ex ey eh : ℚ) (s : ProgState) (evs : List Event)
    (h : s.routing_published = true) :
    (run ex ey eh s evs).1 = s ∧ (run ex ey eh s evs).2.1 = [] := by
  induction evs with
  | nil => simp [run]
  | cons e rest ih =>
      cases e with
      | poseMsg m => simpa [run, callback_published_eq m s h] using ih
      | tick now wOk => simp [run, h]

/-- Any run submits at most one message to the bus writer. -/
theorem run_writes_length_le (ex ey eh : ℚ) (s : ProgState)
    (evs : List Event) : (run ex ey eh s evs).2.1.length ≤ 1 := by
  induction evs generalizing s with
  | nil => simp [run]
  | cons e rest ih =>
      cases e with
      | poseMsg m => simpa [run] using ih (localization_callback m s)
      | tick now wOk =>
          by_cases hp : s.routing_published
          · simp [run, hp]
          · rcases hlat : s.latest_localization_msg with _ | m
            · simpa [run, hp, create_and_publish_routing_request, hlat]
                using ih { s with routing_published := false }
            · cases wOk <;>
                simp [run, hp, create_and_publish_routing_request, hlat]

/-! ## Claim theorems -/

/-- C1: Over every run-loop event trace from the initial state, at most one
RoutingRequest is ever submitted to the bus writer; and once the published
flag is true, a run performs no submission at all (the tick neither calls
the publish step nor writes). -/
theorem C1_at_most_one_submission (ex ey eh : ℚ) (evs : List Event)
    (s : ProgState) (hpub : s.routing_published = true) :
    (run ex ey eh initState evs).2.1.length ≤ 1 ∧
    (run ex ey eh s evs).2.1 = [] :=
  ⟨run_writes_length_le ex ey eh initState evs,
   (run_of_published ex ey eh s evs hpub).2⟩

/-- Witness for C1 at a concrete trace and a concrete published state. -/
theorem C1_witness :
    (run 5 6 1 initState [Event.tick 0 true]).2.1.length ≤ 1 ∧
    (run 5 6 1 { latest_localization_msg := none, global_sequence_num := 0,
                 routing_published := true } [Event.tick 0 true]).2.1 = [] :=
  C1_at_most_one_submission 5 6 1 [Event.tick 0 true]
    { latest_localization_msg := none, global_sequence_num := 0,
      routing_published := true } rfl

/-- C2: With a cached pose, a successful publish step returns `true`, bumps
the sequence counter by one, and submits exactly one message whose header
carries the new sequence number and whose waypoint list has exactly two
entries: the cached pose's `x`/`y` with no heading, then the configured
end point with its heading. -/
theorem C2_published_message_shape (now ex ey eh : ℚ) (s : ProgState)
    (m : LocalizationEstimate) (hlat : s.latest_localization_msg = some m) :
    create_and_publish_routing_request now true ex ey eh s =
      PubResult.ok true
        { s with global_sequence_num := s.global_sequence_num + 1 }
        [{ header := some { timestamp_sec := now,
                            module_name := "routing_publisher",
                            sequence_num := s.global_sequence_num + 1 },
           waypoint :=
             [{ pose := { x := m.pose.position.x, y := m.pose.position.y },
                heading := none },
              { pose := { x := ex, y := ey }, heading := some eh }] }] := by
  simp [create_and_publish_routing_request, hlat, fill_header,
    freshRoutingRequest]

/-- Witness for C2: the spec scenario — cached pose `(1, 2)` (heading `3`,
dropped), target `(5, 6, 0.78)`, fresh counter — yields sequence number `1`,
waypoints `(1,2)` (no heading) and `(5,6,` heading `0.78)`, and success. -/
theorem C2_witness :
    create_and_publish_routing_request 10 true 5 6 (78/100)
        { latest_localization_msg :=
            some { pose := { position := { x := 1, y := 2 }, heading := 3 } },
          global_sequence_num := 0, routing_published := false } =
      PubResult.ok true
        { latest_localization_msg :=
            some { pose := { position := { x := 1, y := 2 }, heading := 3 } },
          global_sequence_num := 1, routing_published := false }
        [{ header := some { timestamp_sec := 10,
                            module_name := "routing_publisher",
                            sequence_num := 1 },
           waypoint := [{ pose := { x := 1, y := 2 }, heading := none },
                        { pose := { x := 5, y := 6 },
                          heading := some (78/100) }] }] := by
  have h := C2_published_message_shape 10 5 6 (78/100)
    { latest_localization_msg :=
        some { pose := { position := { x := 1, y := 2 }, heading := 3 } },
      global_sequence_num := 0, routing_published := false }
    { pose := { position := { x := 1, y := 2 }, heading := 3 } } rfl
  simpa using h

/-- Stamping a list of messages from counter `c` stamps exactly the numbers
`c+1, c+2, …, c+N` in call order, where `N` counts the messages that have a
header, and leaves the counter at `c + N`. -/
theorem stampAll_eq {α : Type} (now : ℚ) (c : ℕ) (ms : List (PbMessage α)) :
    stampAll now c ms =
      (c + ms.countP (fun m => m.header.isSome),
       List.range' (c + 1) (ms.countP (fun m => m.header.isSome))) := by
  induction ms generalizing c with
  | nil => simp [stampAll]
  | cons m ms ih =>
      rcases hh : m.header with _ | h
      · simp [stampAll, fill_header, hh, ih c, List.countP_cons]
      · simp [stampAll, fill_header, hh, ih (c + 1), List.countP_cons,
          List.range'_succ]
        omega

/-- C3: From a fresh process (counter `0`), the sequence numbers stamped by
`fill_header` across any call sequence are exactly `1, 2, …, N` in call
order, where `N` is the number of headers stamped; the counter ends at `N`. -/
theorem C3_sequence_numbers_exact {α : Type} (now : ℚ)
    (ms : List (PbMessage α)) :
    (stampAll now 0 ms).2 =
      List.range' 1 (ms.countP (fun m => m.header.isSome)) ∧
    (stampAll now 0 ms).1 = ms.countP (fun m => m.header.isSome) := by
  simp [stampAll_eq]

/-- C4: `move_by_heading` computes exactly
`(x + length·cos heading, y + length·sin heading)`, and the startup target
point equals the configured original end point offset by the extension
length along the configured heading.  Determinism is immediate: the value
is a function of the arguments alone. -/
theorem C4_move_by_heading_formula (x y heading length : ℝ) :
    move_by_heading x y heading length =
      (x + length * Real.cos heading, y + length * Real.sin heading) ∧
    (END_X, END_Y) =
      (ORIGINAL_END_X + EXTEND_LENGTH * Real.cos ORIGINAL_END_HEADING,
       ORIGINAL_END_Y + EXTEND_LENGTH * Real.sin ORIGINAL_END_HEADING) :=
  ⟨rfl, rfl⟩

/-- C5 counterexample: a failed bus write does NOT lead to a retry.  From the
initial state, after a pose arrives, a tick whose write fails ends the whole
run with an uncaught exception: the only submission ever made is the failed
one, `routing_published` is still `false`, and the later tick with a working
writer (present in the trace) never executes — nothing is ever published. -/
theorem C5_counterexample :
    run 5 6 1 initState
        [Event.poseMsg { pose := { position := { x := 1, y := 2 },
                                   heading := 3 } },
         Event.tick 10 false, Event.tick 11 true] =
      ({ latest_localization_msg :=
           some { pose := { position := { x := 1, y := 2 }, heading := 3 } },
         global_sequence_num := 1, routing_published := false },
       [{ header := some { timestamp_sec := 10,
                           module_name := "routing_publisher",
                           sequence_num := 1 },
          waypoint := [{ pose := { x := 1, y := 2 }, heading := none },
                       { pose := { x := 5, y := 6 }, heading := some 1 }] }],
       StopReason.uncaughtException) := by
  decide

/-- C5 amended: when the bus write fails, `routing_published` indeed stays
`false` and the sequence counter keeps its incremented value (the gap), but
no future tick retries: the exception escapes the run loop, so the run ends
immediately with `uncaughtException` no matter what events were still
scheduled, and the failed submission is the last. -/
theorem C5_failed_write_aborts_loop (s : ProgState)
    (m : LocalizationEstimate) (now ex ey eh : ℚ) (rest : List Event)
    (hpub : s.routing_published = false)
    (hlat : s.latest_localization_msg = some m) :
    run ex ey eh s (Event.tick now false :: rest) =
      ({ s with global_sequence_num := s.global_sequence_num + 1 },
       [{ header := some { timestamp_sec := now,
                           module_name := "routing_publisher",
                           sequence_num := s.global_sequence_num + 1 },
          waypoint :=
            [{ pose := { x := m.pose.position.x, y := m.pose.position.y },
               heading := none },
             { pose := { x := ex, y := ey }, heading := some eh }] }],
       StopReason.uncaughtException) := by
  simp [run, hpub, create_and_publish_routing_request, hlat, fill_header,
    freshRoutingRequest]

/-- Witness for the amended C5 at concrete inputs. -/
theorem C5_amended_witness :
    run 5 6 1
        { latest_localization_msg :=
            some { pose := { position := { x := 1, y := 2 }, heading := 3 } },
          global_sequence_num := 0, routing_published := false }
        [Event.tick 10 false, Event.tick 11 true] =
      ({ latest_localization_msg :=
           some { pose := { position := { x := 1, y := 2 }, heading := 3 } },
         global_sequence_num := 1, routing_published := false },
       [{ header := some { timestamp_sec := 10,
                           module_name := "routing_publisher",
                           sequence_num := 1 },
          waypoint := [{ pose := { x := 1, y := 2 }, heading := none },
                       { pose := { x := 5, y := 6 }, heading := some 1 }] }],
       StopReason.uncaughtException) :=
  C5_failed_write_aborts_loop
    { latest_localization_msg :=
        some { pose := { position := { x := 1, y := 2 }, heading := 3 } },
      global_sequence_num := 0, routing_published := false }
    { pose := { position := { x := 1, y := 2 }, heading := 3 } }
    10 5 6 1 [Event.tick 11 true] rfl rfl

/-- C6: Whenever no localization pose is cached, the publish step returns
`False` and submits nothing to the bus, for every clock value, writer
behavior, and end-point configuration. -/
theorem C6_no_pose_not_ready (now : ℚ) (wOk : Bool) (ex ey eh : ℚ)
    (s : ProgState) (h : s.latest_localization_msg = none) :
    create_and_publish_routing_request now wOk ex ey eh s =
      PubResult.ok false s [] := by
  simp [create_and_publish_routing_request, h]

/-- Witness for C6 at the initial state. -/
theorem C6_witness :
    create_and_publish_routing_request 7 true 5 6 1 initState =
      PubResult.ok false initState [] :=
  C6_no_pose_not_ready 7 true 5 6 1 initState rfl

/-- C7: Once the published flag is set, the localization callback is a no-op
on the whole state (in particular it never throws, being total), so a
following read of the cache returns the same value as before. -/
theorem C7_callback_noop_after_publish (s : ProgState)
    (p : LocalizationEstimate) (h : s.routing_published = true) :
    localization_callback p s = s ∧
    (localization_callback p s).latest_localization_msg =
      s.latest_localization_msg := by
  have he := callback_published_eq p s h
  exact ⟨he, by rw [he]⟩

/-- Witness for C7 at a concrete published state and pose. -/
theorem C7_witness :
    localization_callback
        { pose := { position := { x := 9, y := 9 }, heading := 0 } }
        { latest_localization_msg :=
            some { pose := { position := { x := 1, y := 2 }, heading := 3 } },
          global_sequence_num := 1, routing_published := true } =
      { latest_localization_msg :=
          some { pose := { position := { x := 1, y := 2 }, heading := 3 } },
        global_sequence_num := 1, routing_published := true } :=
  (C7_callback_noop_after_publish
    { latest_localization_msg :=
        some { pose := { position := { x := 1, y := 2 }, heading := 3 } },
      global_sequence_num := 1, routing_published := true }
    { pose := { position := { x := 9, y := 9 }, heading := 0 } } rfl).1

/-- C8: While unpublished, delivering pose `p1` and then pose `p2` leaves the
cache holding `p2`: the latest inbound pose overwrites the single retained
snapshot. -/
theorem C8_last_write_wins (s : ProgState) (p1 p2 : LocalizationEstimate)
    (h : s.routing_published = false) :
    (localization_callback p2
        (localization_callback p1 s)).latest_localization_msg = some p2 := by
  simp [localization_callback, h]

/-- Witness for C8 with two concrete poses from the initial state. -/
theorem C8_witness :
    (localization_callback
        { pose := { position := { x := 3, y := 4 }, heading := 0 } }
        (localization_callback
          { pose := { position := { x := 1, y := 2 }, heading := 0 } }
          initState)).latest_localization_msg =
      some { pose := { position := { x := 3, y := 4 }, heading := 0 } } :=
  C8_last_write_wins initState
    { pose := { position := { x := 1, y := 2 }, heading := 0 } }
    { pose := { position := { x := 3, y := 4 }, heading := 0 } } rfl

/-- C9: On a message without a `header` attribute, `fill_header` returns
normally, leaves the message unchanged, and leaves the sequence counter
unchanged. -/
theorem C9_fill_header_no_header_noop {α : Type} (now : ℚ) (seq : ℕ)
    (m : PbMessage α) (h : m.header = none) :
    fill_header now seq m = (m, seq) := by
  simp [fill_header, h]

/-- Witness for C9 on a concrete headerless message. -/
theorem C9_witness :
    fill_header (α := Unit) 7 5 { header := none, waypoint := () } =
      ({ header := none, waypoint := () }, 5) :=
  C9_fill_header_no_header_noop 7 5 { header := none, waypoint := () } rfl

/-- C10: A run-loop tick taken while no pose is cached (and nothing yet
published) is invisible: the whole run over the remaining events is
unchanged, so the tick incremented no counter, wrote nothing to the bus,
and left the cached pose and published flag as they were. -/
theorem C10_not_ready_tick_noop (now : ℚ) (wOk : Bool) (ex ey eh : ℚ)
    (s : ProgState) (rest : List Event)
    (hpub : s.routing_published = false)
    (hlat : s.latest_localization_msg = none) :
    run ex ey eh s (Event.tick now wOk :: rest) = run ex ey eh s rest := by
  obtain ⟨l, q, p⟩ := s
  simp only at hpub hlat
  subst hpub hlat
  simp [run, create_and_publish_routing_request]

/-- Witness for C10 on a concrete trace from the initial state. -/
theorem C10_witness :
    run 5 6 1 initState
        [Event.tick 0 true,
         Event.poseMsg { pose := { position := { x := 1, y := 2 },
                                   heading := 3 } }] =
      run 5 6 1 initState
        [Event.poseMsg { pose := { position := { x := 1, y := 2 },
                                   heading := 3 } }] :=
  C10_not_ready_tick_noop 0 true 5 6 1 initState
    [Event.poseMsg { pose := { position := { x := 1, y := 2 },
                               heading := 3 } }] rfl rfl

end RoutingRequestTool
